import Mathlib

/-!
Shallow embedding of the booking/marketplace backend routes in
`src/routes/auth.js` (the admin route chunk, lines 525-1061, together with
the login/signup chunk, lines 1-277).  JavaScript numbers are modelled by
`JsRat`, an exact-rational value type (IEEE-754 rounding is idealized
away); JS strings are `String`; absent body fields are `none`; JS
truthiness is made explicit by `truthy*` helpers.  Database calls become
lookups in explicit in-memory lists, and `bcrypt` comparison/hashing are
passed in as function parameters.
-/

namespace Jeep

/-- Exact-rational model of a JavaScript number: `num / den`.  All
operations normalize, so every value produced from literals is in lowest
terms and structural equality coincides with numeric equality there. -/
structure JsRat where
  num : Int
  den : Nat
deriving DecidableEq, Repr

/-- Normalize a fraction to lowest terms. -/
def JsRat.norm (n : Int) (d : Nat) : JsRat :=
  let g := n.natAbs.gcd d
  ⟨n / (g : Int), d / g⟩

instance (n : Nat) : OfNat JsRat n := ⟨⟨(n : Int), 1⟩⟩

instance : OfScientific JsRat :=
  ⟨fun m b e => if b then JsRat.norm (m : Int) (10 ^ e) else ⟨(m : Int) * 10 ^ e, 1⟩⟩

instance : Add JsRat := ⟨fun a b => JsRat.norm (a.num * b.den + b.num * a.den) (a.den * b.den)⟩

instance : Mul JsRat := ⟨fun a b => JsRat.norm (a.num * b.num) (a.den * b.den)⟩

instance : LE JsRat := ⟨fun a b => a.num * b.den ≤ b.num * a.den⟩

instance : LT JsRat := ⟨fun a b => a.num * b.den < b.num * a.den⟩

instance (a b : JsRat) : Decidable (a ≤ b) :=
  inferInstanceAs (Decidable (a.num * b.den ≤ b.num * a.den))

instance (a b : JsRat) : Decidable (a < b) :=
  inferInstanceAs (Decidable (a.num * b.den < b.num * a.den))

/-- Rendering used when a number is interpolated into a template string;
integers print as in JS. -/
instance : ToString JsRat :=
  ⟨fun q => if q.den == 1 then toString q.num
    else toString q.num ++ "/" ++ toString q.den⟩

/-- JS truthiness of a possibly-absent string body field:
falsy iff absent or the empty string. -/
def truthyStr : Option String → Bool
  | none => false
  | some s => s != ""

/-- JS truthiness of a possibly-absent numeric body field:
falsy iff absent or equal to `0` (NaN is not modelled). -/
def truthyNum : Option JsRat → Bool
  | none => false
  | some q => q.num != 0

/-- Model of `mongoose.Types.ObjectId.isValid` on strings: a 24-character
hex string (mongoose also accepts any 12-character string). -/
def isValidObjectId (s : String) : Bool :=
  (s.length == 24 &&
    s.data.all (fun c => c.isDigit || ('a' ≤ c && c ≤ 'f') || ('A' ≤ c && c ≤ 'F')))
  || s.length == 12

/-- One pricing band `{ min, max, price }` of `PRICING_STRUCTURE`
(`src/routes/auth.js:570-605`); `max = none` models `max: Infinity`. -/
structure Tier where
  min : JsRat
  max : Option JsRat
  price : JsRat
deriving DecidableEq, Repr

/-- `totalPersons >= tier.min && totalPersons <= tier.max`
(`src/routes/auth.js:863`); a `none` max (`Infinity`) admits every size. -/
def Tier.containsPersons (t : Tier) (n : JsRat) : Bool :=
  decide (t.min ≤ n) &&
    (match t.max with
     | none => true
     | some m => decide (n ≤ m))

/-- The static pricing table `PRICING_STRUCTURE`
(`src/routes/auth.js:570-605`).  A `none` value models a `null` entry
(product not bookable generically); a key absent from the list models a
key absent from the JS object. -/
def PRICING_STRUCTURE : List (String × Option (List Tier)) :=
  [ ("Jeep Safari", some
      [ ⟨1, some 3, 38⟩, ⟨4, some 5, 30⟩, ⟨6, some 10, 20⟩, ⟨11, some 20, 15⟩ ]),
    ("Catamaran Boat Ride", some
      [ ⟨1, some 1, 9.8⟩, ⟨2, none, 7⟩ ]),
    ("Village Cooking Experience", some
      [ ⟨1, some 5, 15⟩, ⟨6, some 10, 13⟩, ⟨11, some 20, 11⟩, ⟨21, some 50, 10⟩ ]),
    ("Bullock Cart Ride", some
      [ ⟨1, some 5, 9.9⟩, ⟨6, some 20, 5⟩, ⟨21, some 50, 4⟩ ]),
    ("Village Tour", some
      [ ⟨1, some 5, 19.9⟩, ⟨6, some 10, 18.2⟩, ⟨11, some 20, 17.3⟩,
        ⟨21, some 30, 16.3⟩, ⟨31, some 50, 15⟩ ]),
    ("Traditional Village Lunch", some
      [ ⟨1, none, 15⟩ ]),
    ("Sundowners Cocktail", none),
    ("High Tea", none),
    ("Tuk Tuk Adventures", none) ]

/-- `const pricing = PRICING_STRUCTURE[productType]` followed by the falsy
check `if (!pricing)` (`src/routes/auth.js:857-861`): both a `null` entry
and an absent key are falsy, so either yields `none`. -/
def pricingFor (productType : String) : Option (List Tier) :=
  match PRICING_STRUCTURE.lookup productType with
  | some (some tiers) => some tiers
  | _ => none

/-- A persisted Tourist document (fields used by the routes). -/
structure Tourist where
  id : String
  fullName : String
  email : String
  password : String
  country : String
deriving DecidableEq, Repr

/-- A persisted Provider document (fields the routes read and write). -/
structure Provider where
  id : String
  serviceName : String
  fullName : String
  email : String
  contact : String
  category : String
  location : String
  price : JsRat
  description : String
  password : String
  approved : Bool
  profilePicture : String
  photos : List String
deriving DecidableEq, Repr

/-- A persisted Admin document (authenticates by username). -/
structure Admin where
  id : String
  username : String
  password : String
deriving DecidableEq, Repr

/-- A persisted Booking document as built by `POST /bookings/admin`
(`src/routes/auth.js:839-874`).  Exactly one of `providerId` /
`productType` is `some` in documents the handler creates; `date` is kept
as the raw string (date parsing is not modelled). -/
structure Booking where
  id : String
  touristId : String
  providerId : Option String
  productType : Option String
  date : String
  time : String
  adults : JsRat
  children : JsRat
  status : String
  totalPrice : JsRat
  specialNotes : Option String
deriving DecidableEq, Repr

/-- The document database: one list per collection. -/
structure DB where
  tourists : List Tourist
  providers : List Provider
  admins : List Admin
  bookings : List Booking
deriving DecidableEq, Repr

/-- The request body of `POST /bookings/admin` (`src/routes/auth.js:815`).
Absent fields are `none`.  `totalPrice` is destructured from the body by
the handler but never read afterwards. -/
structure BookingRequest where
  providerId : Option String
  touristId : Option String
  productType : Option String
  date : Option String
  time : Option String
  adults : Option JsRat
  children : Option JsRat
  status : Option String
  totalPrice : Option JsRat
  specialNotes : Option String
deriving DecidableEq, Repr

/-- Outcome of a creation handler: an HTTP error `{status, error}` or the
created document. -/
inductive CreateResult where
  | error (status : Nat) (msg : String)
  | created (b : Booking)
deriving DecidableEq, Repr

/-- `POST /bookings/admin` (`src/routes/auth.js:814-881`), translated
check by check.  `freshId` models the database-generated document id.
`status || 'pending'` and `Number(children || 0)` are JS falsy defaults;
`new Date(date)` is kept as the raw string.  The client-supplied
`totalPrice` field is never consulted, exactly as in the source. -/
def createBooking (db : DB) (freshId : String) (r : BookingRequest) : CreateResult :=
  if !truthyStr r.touristId || !truthyStr r.date || !truthyStr r.time
      || !truthyNum r.adults then
    .error 400 "Tourist ID, Date, Time, and Adults are required"
  else if truthyStr r.providerId && truthyStr r.productType then
    .error 400 "Cannot specify both providerId and productType"
  else if truthyStr r.providerId && !isValidObjectId (r.providerId.getD "") then
    .error 400 "Invalid Provider ID"
  else if !isValidObjectId (r.touristId.getD "") then
    .error 400 "Invalid Tourist ID"
  else if (db.tourists.find? (fun t => t.id == r.touristId.getD "")).isNone then
    .error 404 "Tourist not found"
  else
    let adults := r.adults.getD 0
    let children := r.children.getD 0
    let status := if truthyStr r.status then r.status.getD "" else "pending"
    if truthyStr r.providerId then
      match db.providers.find? (fun p => p.id == r.providerId.getD "") with
      | none => .error 404 "Provider not found"
      | some p =>
          .created
            { id := freshId
              touristId := r.touristId.getD ""
              providerId := r.providerId
              productType := none
              date := r.date.getD ""
              time := r.time.getD ""
              adults := adults
              children := children
              status := status
              totalPrice := p.price * (adults + children * 0.5)
              specialNotes := r.specialNotes }
    else if truthyStr r.productType then
      match pricingFor (r.productType.getD "") with
      | none => .error 400 "Invalid product type or no pricing available"
      | some tiers =>
          let totalPersons := adults + children
          match tiers.find? (fun t => t.containsPersons totalPersons) with
          | none =>
              .error 400 ("No pricing tier for " ++ toString totalPersons ++ " persons")
          | some tier =>
              .created
                { id := freshId
                  touristId := r.touristId.getD ""
                  providerId := none
                  productType := r.productType
                  date := r.date.getD ""
                  time := r.time.getD ""
                  adults := adults
                  children := children
                  status := status
                  totalPrice := totalPersons * tier.price
                  specialNotes := r.specialNotes }
    else
      .error 400 "Either providerId or productType is required"

/-- Outcome of `findByIdAndUpdate`-style booking routes: an HTTP error or
the updated database together with the returned (updated) document. -/
inductive UpdateResult where
  | error (status : Nat) (msg : String)
  | ok (db : DB) (b : Booking)
deriving DecidableEq, Repr

/-- `PUT /bookings/admin/:id/approve` (`src/routes/auth.js:884-915`):
validate the id, then `findByIdAndUpdate(id, { status: 'confirmed' },
{ new: true })` — the update document touches only `status`, so every
other field of the booking is carried over unchanged. -/
def approveBooking (db : DB) (id : String) : UpdateResult :=
  if !isValidObjectId id then
    .error 400 "Invalid Booking ID"
  else
    match db.bookings.find? (fun b => b.id == id) with
    | none => .error 404 "Booking not found"
    | some b =>
        .ok { db with bookings :=
                db.bookings.map (fun x =>
                  if x.id == id then { x with status := "confirmed" } else x) }
           { b with status := "confirmed" }

/-- The request body of `POST /login` (`src/routes/auth.js:48`). -/
structure LoginRequest where
  email : Option String
  password : Option String
  role : Option String
deriving DecidableEq, Repr

/-- Outcome of the login handler: an HTTP error or a signed token
embedding `{ id, role }`. -/
inductive LoginResult where
  | error (status : Nat) (msg : String)
  | token (userId : String) (role : String)
deriving DecidableEq, Repr

/-- `POST /login` (`src/routes/auth.js:47-107`).  `compare` models
`bcrypt.compare(password, storedHash)`.  The per-role lookup yields
`(id, storedHash, approved)`; the `approved` component is only consulted
under the `role === 'provider'` guard, exactly as in the source, so the
placeholder `true` for the other roles is never read. -/
def login (compare : String → String → Bool) (db : DB) (r : LoginRequest) :
    LoginResult :=
  if !truthyStr r.email || !truthyStr r.password || !truthyStr r.role then
    .error 400 "Email, password, and role are required"
  else
    let role := r.role.getD ""
    if !(["tourist", "provider", "admin"].contains role) then
      .error 400 "Invalid role"
    else
      let email := r.email.getD ""
      let user? : Option (String × String × Bool) :=
        if role == "tourist" then
          (db.tourists.find? (fun t => t.email == email)).map
            (fun t => (t.id, t.password, true))
        else if role == "provider" then
          (db.providers.find? (fun p => p.email == email)).map
            (fun p => (p.id, p.password, p.approved))
        else
          (db.admins.find? (fun a => a.username == email)).map
            (fun a => (a.id, a.password, true))
      match user? with
      | none =>
          .error 400 ("No " ++ role ++ " found with this "
            ++ (if role == "admin" then "username" else "email"))
      | some (uid, storedHash, approved) =>
          if !compare (r.password.getD "") storedHash then
            .error 400 "Invalid credentials"
          else if role == "provider" && !approved then
            .error 403 "Provider not approved yet"
          else
            .token uid role

/-- The request body plus uploaded files of the two provider-creation
routes (`src/routes/auth.js:663` and `src/routes/auth.js:184`).
`profilePicture` / `photos` model the multer `req.files` entries: a key
is absent when no file was uploaded under it, so `none` / `[]` stand for
the absent keys. -/
structure ProviderRequest where
  serviceName : Option String
  fullName : Option String
  email : Option String
  contact : Option String
  category : Option String
  location : Option String
  price : Option JsRat
  description : Option String
  password : Option String
  profilePicture : Option String
  photos : List String
deriving DecidableEq, Repr

/-- Outcome of a provider-creation handler. -/
inductive ProviderCreateResult where
  | error (status : Nat) (msg : String)
  | created (db : DB) (p : Provider)
deriving DecidableEq, Repr

/-- `POST /providers` (admin add-provider, `src/routes/auth.js:659-706`),
check by check.  `hashFn` models `bcrypt.hash(·, 10)`; `freshId` the
database-generated id.  The stored picture paths keep the uploaded path
after the source's `Uploads/`-relative normalization, which is not
modelled further.  The created document has `approved: true`
(`src/routes/auth.js:696`). -/
def addProvider (hashFn : String → String) (db : DB) (freshId : String)
    (r : ProviderRequest) : ProviderCreateResult :=
  if !truthyStr r.serviceName || !truthyStr r.fullName || !truthyStr r.email
      || !truthyStr r.contact || !truthyStr r.category || !truthyStr r.location
      || !truthyNum r.price || !truthyStr r.description
      || !truthyStr r.password then
    .error 400 "All fields are required"
  else if r.profilePicture.isNone || r.photos.isEmpty then
    .error 400 "Profile picture and at least one photo are required"
  else if (r.password.getD "").length < 6 then
    .error 400 "Password must be at least 6 characters"
  else if (db.providers.find? (fun p => p.email == r.email.getD "")).isSome then
    .error 400 "Email already exists"
  else
    let p : Provider :=
      { id := freshId
        serviceName := r.serviceName.getD ""
        fullName := r.fullName.getD ""
        email := r.email.getD ""
        contact := r.contact.getD ""
        category := r.category.getD ""
        location := r.location.getD ""
        price := r.price.getD 0
        description := r.description.getD ""
        password := hashFn (r.password.getD "")
        approved := true
        profilePicture := "Uploads/" ++ r.profilePicture.getD ""
        photos := r.photos.map (fun ph => "Uploads/" ++ ph) }
    .created { db with providers := db.providers ++ [p] } p

/-- The email-shape test of the signup routes, modelling the regex
`/^[^\s@]+@[^\s@]+\.[^\s@]+$/` (`src/routes/auth.js:196`): exactly one
`@`, no whitespace anywhere, a nonempty local part, and a `.` in the
domain that is neither its first nor its last character. -/
def emailOk (s : String) : Bool :=
  match s.data.splitOn '@' with
  | [localPart, domain] =>
      !localPart.isEmpty && !domain.isEmpty
        && localPart.all (fun c => !c.isWhitespace)
        && domain.all (fun c => !c.isWhitespace)
        && ((domain.drop 1).dropLast.contains '.')
  | _ => false

/-- `POST /provider/signup` (`src/routes/auth.js:180-275`), check by
check: presence, email shape, password length, positive price, file
uploads, email uniqueness.  The created document has `approved: false`
(`src/routes/auth.js:247`); `hashFn` models `bcrypt.hash` with a fresh
salt. -/
def providerSignup (hashFn : String → String) (db : DB) (freshId : String)
    (r : ProviderRequest) : ProviderCreateResult :=
  if !truthyStr r.serviceName || !truthyStr r.fullName || !truthyStr r.email
      || !truthyStr r.contact || !truthyStr r.category || !truthyStr r.location
      || !truthyNum r.price || !truthyStr r.description
      || !truthyStr r.password then
    .error 400 "All fields are required"
  else if !emailOk (r.email.getD "") then
    .error 400 "Invalid email format"
  else if (r.password.getD "").length < 6 then
    .error 400 "Password must be at least 6 characters"
  else if !(0 < r.price.getD 0) then
    .error 400 "Price must be a positive number"
  else if r.profilePicture.isNone || r.photos.isEmpty then
    .error 400 "Profile picture and at least one photo are required"
  else if (db.providers.find? (fun p => p.email == r.email.getD "")).isSome then
    .error 400 "Email already exists"
  else
    let p : Provider :=
      { id := freshId
        serviceName := r.serviceName.getD ""
        fullName := r.fullName.getD ""
        email := r.email.getD ""
        contact := r.contact.getD ""
        category := r.category.getD ""
        location := r.location.getD ""
        price := r.price.getD 0
        description := r.description.getD ""
        password := hashFn (r.password.getD "")
        approved := false
        profilePicture := "/Uploads/" ++ r.profilePicture.getD ""
        photos := r.photos.map (fun ph => "/Uploads/" ++ ph) }
    .created { db with providers := db.providers ++ [p] } p

/-! ### Concrete fixtures used by witnesses and counterexamples -/

/-- A stored tourist with a well-formed ObjectId. -/
def exTourist : Tourist :=
  ⟨"aaaaaaaaaaaaaaaaaaaaaaaa", "Alice", "alice@example.com", "h1", "LK"⟩

/-- A stored, approved provider with per-person price 20. -/
def exProvider : Provider :=
  ⟨"bbbbbbbbbbbbbbbbbbbbbbbb", "Jeep Rides", "Bob", "bob@example.com",
    "071", "Safari", "Habarana", 20, "rides", "hashedpw", true, "p.jpg", ["g.jpg"]⟩

/-- A stored, not-yet-approved provider. -/
def exPendingProvider : Provider :=
  ⟨"cccccccccccccccccccccccc", "Boat Rides", "Cara", "cara@example.com",
    "072", "Boat", "Trinco", 15, "boats", "hashedpw2", false, "p2.jpg", ["g2.jpg"]⟩

/-- Database holding the fixtures above and one pending booking. -/
def exDB : DB :=
  ⟨[exTourist], [exProvider, exPendingProvider], [⟨"ad1", "root", "adminhash"⟩],
    [⟨"dddddddddddddddddddddddd", "aaaaaaaaaaaaaaaaaaaaaaaa", none,
      some "Jeep Safari", "2025-02-02", "10:00", 2, 0, "pending", 76, none⟩]⟩

/-- Booking request for the spec's worked example: Village Tour,
4 adults, 2 children. -/
def villageTourReq : BookingRequest :=
  { providerId := none, touristId := some "aaaaaaaaaaaaaaaaaaaaaaaa",
    productType := some "Village Tour", date := some "2025-01-01",
    time := some "09:00", adults := some 4, children := some 2,
    status := none, totalPrice := none, specialNotes := none }

/-- Booking request against `exProvider`: 3 adults, 2 children. -/
def providerPathReq : BookingRequest :=
  { providerId := some "bbbbbbbbbbbbbbbbbbbbbbbb",
    touristId := some "aaaaaaaaaaaaaaaaaaaaaaaa",
    productType := none, date := some "2025-01-01",
    time := some "09:00", adults := some 3, children := some 2,
    status := none, totalPrice := none, specialNotes := none }

/-! ### Claim theorems -/

/-- C1: on the product-type path (required fields present, no providerId,
productType resolving to a non-null tier list, tourist resolving), the
handler computes `totalPersons = adults + children`, takes the first tier
of the list containing `totalPersons` (unbounded `max` allowed), and the
created booking has `totalPrice = totalPersons * tier.price`; when no
tier contains `totalPersons` it fails with 400 naming the party size. -/
theorem booking_productType_tier_pricing
    (db : DB) (fid : String) (r : BookingRequest) (tiers : List Tier)
    (h1 : truthyStr r.touristId = true) (h2 : truthyStr r.date = true)
    (h3 : truthyStr r.time = true) (h4 : truthyNum r.adults = true)
    (h5 : truthyStr r.providerId = false)
    (h6 : truthyStr r.productType = true)
    (h7 : isValidObjectId (r.touristId.getD "") = true)
    (h8 : (db.tourists.find? (fun t => t.id == r.touristId.getD "")).isNone = false)
    (h9 : pricingFor (r.productType.getD "") = some tiers) :
    (∀ tr, tiers.find?
        (fun t => t.containsPersons (r.adults.getD 0 + r.children.getD 0)) = some tr →
      ∃ b, createBooking db fid r = .created b ∧
        b.totalPrice = (r.adults.getD 0 + r.children.getD 0) * tr.price ∧
        b.productType = r.productType) ∧
    (tiers.find?
        (fun t => t.containsPersons (r.adults.getD 0 + r.children.getD 0)) = none →
      createBooking db fid r = .error 400
        ("No pricing tier for "
          ++ toString (r.adults.getD 0 + r.children.getD 0) ++ " persons")) := by
  constructor
  · intro tr hfind
    have hb : createBooking db fid r = .created
        { id := fid, touristId := r.touristId.getD "", providerId := none,
          productType := r.productType, date := r.date.getD "",
          time := r.time.getD "",
          adults := r.adults.getD 0, children := r.children.getD 0,
          status := if truthyStr r.status then r.status.getD "" else "pending",
          totalPrice := (r.adults.getD 0 + r.children.getD 0) * tr.price,
          specialNotes := r.specialNotes } := by
      simp [createBooking, h1, h2, h3, h4, h5, h6, h7, h8, h9, hfind]
    exact ⟨_, hb, rfl, rfl⟩
  · intro hfind
    simp [createBooking, h1, h2, h3, h4, h5, h6, h7, h8, h9, hfind]

/-- C1 witness: the spec's worked example — Village Tour with 4 adults
and 2 children lands in the 6–10 band at 18.2 and the created booking has
`totalPrice = 109.2`. -/
theorem booking_productType_tier_pricing_witness :
    ∃ b, createBooking exDB "b1" villageTourReq = .created b ∧
      b.totalPrice = (109.2 : JsRat) := by
  have h := booking_productType_tier_pricing exDB "b1" villageTourReq
    [ ⟨1, some 5, 19.9⟩, ⟨6, some 10, 18.2⟩, ⟨11, some 20, 17.3⟩,
      ⟨21, some 30, 16.3⟩, ⟨31, some 50, 15⟩ ]
    (by decide) (by decide) (by decide) (by decide) (by decide)
    (by decide) (by decide) (by decide) (by decide)
  obtain ⟨b, hb, hp, -⟩ := h.1 ⟨6, some 10, 18.2⟩ (by decide)
  exact ⟨b, hb, by rw [hp]; decide⟩

/-- C2: on the provider path (required fields present, no productType,
well-formed providerId, tourist resolving), a resolving provider with
per-person price `P` yields a created booking with
`totalPrice = P * (adults + children * 0.5)`, and a non-resolving
providerId fails with 404. -/
theorem booking_provider_price_formula
    (db : DB) (fid : String) (r : BookingRequest)
    (h1 : truthyStr r.touristId = true) (h2 : truthyStr r.date = true)
    (h3 : truthyStr r.time = true) (h4 : truthyNum r.adults = true)
    (h5 : truthyStr r.providerId = true)
    (h6 : truthyStr r.productType = false)
    (h7 : isValidObjectId (r.providerId.getD "") = true)
    (h8 : isValidObjectId (r.touristId.getD "") = true)
    (h9 : (db.tourists.find? (fun t => t.id == r.touristId.getD "")).isNone = false) :
    (∀ p, db.providers.find? (fun x => x.id == r.providerId.getD "") = some p →
      ∃ b, createBooking db fid r = .created b ∧
        b.totalPrice = p.price * (r.adults.getD 0 + r.children.getD 0 * 0.5) ∧
        b.providerId = r.providerId) ∧
    (db.providers.find? (fun x => x.id == r.providerId.getD "") = none →
      createBooking db fid r = .error 404 "Provider not found") := by
  constructor
  · intro p hfind
    have hb : createBooking db fid r = .created
        { id := fid, touristId := r.touristId.getD "", providerId := r.providerId,
          productType := none, date := r.date.getD "", time := r.time.getD "",
          adults := r.adults.getD 0, children := r.children.getD 0,
          status := if truthyStr r.status then r.status.getD "" else "pending",
          totalPrice := p.price * (r.adults.getD 0 + r.children.getD 0 * 0.5),
          specialNotes := r.specialNotes } := by
      simp [createBooking, h1, h2, h3, h4, h5, h6, h7, h8, h9, hfind]
    exact ⟨_, hb, rfl, rfl⟩
  · intro hfind
    simp [createBooking, h1, h2, h3, h4, h5, h6, h7, h8, h9, hfind]

/-- C2 witness: the spec's example — provider with price 20, 3 adults,
2 children gives `totalPrice = 20 * (3 + 1) = 80`. -/
theorem booking_provider_price_formula_witness :
    ∃ b, createBooking exDB "b2" providerPathReq = .created b ∧
      b.totalPrice = (80 : JsRat) := by
  have h := booking_provider_price_formula exDB "b2" providerPathReq
    (by decide) (by decide) (by decide) (by decide) (by decide)
    (by decide) (by decide) (by decide) (by decide)
  obtain ⟨b, hb, hp, -⟩ := h.1 exProvider (by decide)
  exact ⟨b, hb, by rw [hp]; decide⟩

/-- Database with no tourists at all. -/
def emptyDB : DB := ⟨[], [], [], []⟩

/-- A request supplying neither providerId nor productType, with a
well-formed touristId that resolves to no stored tourist. -/
def neitherSourceReq : BookingRequest :=
  { providerId := none, touristId := some "aaaaaaaaaaaaaaaaaaaaaaaa",
    productType := none, date := some "2025-01-01", time := some "09:00",
    adults := some 2, children := none, status := none, totalPrice := none,
    specialNotes := none }

/-- A request supplying both a providerId and a productType. -/
def bothSourcesReq : BookingRequest :=
  { villageTourReq with providerId := some "bbbbbbbbbbbbbbbbbbbbbbbb" }

/-- C3 counterexample: a request supplying neither pricing source whose
(well-formed) touristId resolves to no tourist fails with 404, not with
the claimed 400 — the tourist lookup runs before the
neither-source check. -/
theorem booking_neither_source_404_cex :
    (truthyStr neitherSourceReq.providerId
      || truthyStr neitherSourceReq.productType) = false ∧
    createBooking emptyDB "b1" neitherSourceReq =
      .error 404 "Tourist not found" := by
  decide

/-- C3 (amended): a request supplying both pricing sources always fails
with 400; a request supplying neither always fails — with 400, except
that a well-formed touristId resolving to no tourist yields 404 first.
In all cases no booking is created. -/
theorem booking_both_or_neither_fails
    (db : DB) (fid : String) (r : BookingRequest) :
    (truthyStr r.providerId = true → truthyStr r.productType = true →
      ∃ msg, createBooking db fid r = .error 400 msg) ∧
    (truthyStr r.providerId = false → truthyStr r.productType = false →
      (∃ msg, createBooking db fid r = .error 400 msg) ∨
        createBooking db fid r = .error 404 "Tourist not found") := by
  constructor
  · intro hp1 hp2
    by_cases hc1 : (!truthyStr r.touristId || !truthyStr r.date
        || !truthyStr r.time || !truthyNum r.adults) = true
    · exact ⟨"Tourist ID, Date, Time, and Adults are required",
        by simp [createBooking, hc1]⟩
    · simp only [Bool.not_eq_true] at hc1
      exact ⟨"Cannot specify both providerId and productType",
        by simp [createBooking, hc1, hp1, hp2]⟩
  · intro hp1 hp2
    by_cases hc1 : (!truthyStr r.touristId || !truthyStr r.date
        || !truthyStr r.time || !truthyNum r.adults) = true
    · exact Or.inl ⟨"Tourist ID, Date, Time, and Adults are required",
        by simp [createBooking, hc1]⟩
    · simp only [Bool.not_eq_true] at hc1
      by_cases hvt : isValidObjectId (r.touristId.getD "") = true
      · by_cases hfnd :
          (db.tourists.find? (fun t => t.id == r.touristId.getD "")).isNone = true
        · exact Or.inr (by simp [createBooking, hc1, hp1, hp2, hvt, hfnd])
        · simp only [Bool.not_eq_true] at hfnd
          exact Or.inl ⟨"Either providerId or productType is required",
            by simp [createBooking, hc1, hp1, hp2, hvt, hfnd]⟩
      · simp only [Bool.not_eq_true] at hvt
        exact Or.inl ⟨"Invalid Tourist ID",
          by simp [createBooking, hc1, hp1, hp2, hvt]⟩

/-- C3 witness: supplying both pricing sources fails with 400. -/
theorem booking_both_or_neither_fails_witness :
    ∃ msg, createBooking exDB "b1" bothSourcesReq = .error 400 msg :=
  (booking_both_or_neither_fails exDB "b1" bothSourcesReq).1
    (by decide) (by decide)

/-- The reference pricing table of spec §6, transcribed from the spec's
words for comparison with the source's `PRICING_STRUCTURE`: `2+` and
`1+` denote bands with no upper bound, and the three provider-only
experiences carry a null entry. -/
def specReferenceTable : List (String × Option (List Tier)) :=
  [ ("Jeep Safari", some
      [ ⟨1, some 3, 38⟩, ⟨4, some 5, 30⟩, ⟨6, some 10, 20⟩, ⟨11, some 20, 15⟩ ]),
    ("Catamaran Boat Ride", some
      [ ⟨1, some 1, 9.8⟩, ⟨2, none, 7⟩ ]),
    ("Village Cooking Experience", some
      [ ⟨1, some 5, 15⟩, ⟨6, some 10, 13⟩, ⟨11, some 20, 11⟩, ⟨21, some 50, 10⟩ ]),
    ("Bullock Cart Ride", some
      [ ⟨1, some 5, 9.9⟩, ⟨6, some 20, 5⟩, ⟨21, some 50, 4⟩ ]),
    ("Village Tour", some
      [ ⟨1, some 5, 19.9⟩, ⟨6, some 10, 18.2⟩, ⟨11, some 20, 17.3⟩,
        ⟨21, some 30, 16.3⟩, ⟨31, some 50, 15⟩ ]),
    ("Traditional Village Lunch", some
      [ ⟨1, none, 15⟩ ]),
    ("Sundowners Cocktail", none),
    ("High Tea", none),
    ("Tuk Tuk Adventures", none) ]

/-- C4: the static pricing table equals the spec §6 reference table,
entry for entry; in particular the top band of Catamaran Boat Ride and
the only band of Traditional Village Lunch are unbounded, and Sundowners
Cocktail, High Tea and Tuk Tuk Adventures carry null (non-bookable)
entries. -/
theorem pricing_table_matches_spec_reference :
    PRICING_STRUCTURE = specReferenceTable ∧
    pricingFor "Jeep Safari" = some
      [ ⟨1, some 3, 38⟩, ⟨4, some 5, 30⟩, ⟨6, some 10, 20⟩, ⟨11, some 20, 15⟩ ] ∧
    pricingFor "Catamaran Boat Ride" = some [ ⟨1, some 1, 9.8⟩, ⟨2, none, 7⟩ ] ∧
    pricingFor "Traditional Village Lunch" = some [ ⟨1, none, 15⟩ ] ∧
    PRICING_STRUCTURE.lookup "Sundowners Cocktail" = some none ∧
    PRICING_STRUCTURE.lookup "High Tea" = some none ∧
    PRICING_STRUCTURE.lookup "Tuk Tuk Adventures" = some none := by
  decide

/-- C5: approving an existing booking returns it with `status` set to
`"confirmed"` and every other field — in particular `totalPrice` —
unchanged; the stored collections other than `bookings` are untouched,
and `bookings` only has that booking's `status` rewritten. -/
theorem approveBooking_confirms_and_frames
    (db : DB) (id : String) (b : Booking)
    (hv : isValidObjectId id = true)
    (hf : db.bookings.find? (fun x => x.id == id) = some b) :
    ∃ db2 b2, approveBooking db id = .ok db2 b2 ∧
      b2.status = "confirmed" ∧
      b2.id = b.id ∧ b2.touristId = b.touristId ∧ b2.providerId = b.providerId ∧
      b2.productType = b.productType ∧ b2.date = b.date ∧ b2.time = b.time ∧
      b2.adults = b.adults ∧ b2.children = b.children ∧
      b2.totalPrice = b.totalPrice ∧ b2.specialNotes = b.specialNotes ∧
      db2.tourists = db.tourists ∧ db2.providers = db.providers ∧
      db2.admins = db.admins ∧
      db2.bookings = db.bookings.map (fun x =>
        if x.id == id then { x with status := "confirmed" } else x) := by
  have hok : approveBooking db id =
      .ok { db with bookings := db.bookings.map (fun x =>
              if x.id == id then { x with status := "confirmed" } else x) }
         { b with status := "confirmed" } := by
    simp [approveBooking, hv, hf]
  exact ⟨_, _, hok, rfl, rfl, rfl, rfl, rfl, rfl, rfl, rfl, rfl, rfl, rfl,
    rfl, rfl, rfl, rfl⟩

/-- C5 witness: approving the stored pending booking of `exDB` confirms
it and keeps its `totalPrice` of 76. -/
theorem approveBooking_confirms_and_frames_witness :
    ∃ db2 b2, approveBooking exDB "dddddddddddddddddddddddd" = .ok db2 b2 ∧
      b2.status = "confirmed" ∧ b2.totalPrice = (76 : JsRat) := by
  obtain ⟨db2, b2, hok, hst, -, -, -, -, -, -, -, -, hpr, -⟩ :=
    approveBooking_confirms_and_frames exDB "dddddddddddddddddddddddd"
      ⟨"dddddddddddddddddddddddd", "aaaaaaaaaaaaaaaaaaaaaaaa", none,
        some "Jeep Safari", "2025-02-02", "10:00", 2, 0, "pending", 76, none⟩
      (by decide) (by decide)
  exact ⟨db2, b2, hok, hst, by rw [hpr]⟩

/-- C6: a provider-role login whose email resolves to a stored provider
and whose password matches the stored hash is rejected with 403 while
`approved = false`, and yields a token once `approved = true` — so an
unapproved provider can never obtain a token even with correct
credentials. -/
theorem provider_login_requires_approval
    (compare : String → String → Bool) (db : DB) (r : LoginRequest)
    (p : Provider)
    (hrole : r.role = some "provider")
    (hem : truthyStr r.email = true) (hpw : truthyStr r.password = true)
    (hfind : db.providers.find? (fun x => x.email == r.email.getD "") = some p)
    (hcmp : compare (r.password.getD "") p.password = true) :
    (p.approved = false →
      login compare db r = .error 403 "Provider not approved yet") ∧
    (p.approved = true →
      login compare db r = .token p.id "provider") := by
  have hr : truthyStr (some "provider") = true := by decide
  constructor
  · intro ha
    simp [login, hrole, hem, hpw, hfind, hcmp, ha, hr]
  · intro ha
    simp [login, hrole, hem, hpw, hfind, hcmp, ha, hr]

/-- C6 witness: with a comparison that accepts the offered password, the
stored unapproved provider is rejected with 403 and the stored approved
provider receives a token. -/
theorem provider_login_requires_approval_witness :
    login (fun _ _ => true) exDB
        ⟨some "cara@example.com", some "secret", some "provider"⟩ =
      .error 403 "Provider not approved yet" ∧
    login (fun _ _ => true) exDB
        ⟨some "bob@example.com", some "secret", some "provider"⟩ =
      .token "bbbbbbbbbbbbbbbbbbbbbbbb" "provider" := by
  constructor
  · exact (provider_login_requires_approval (fun _ _ => true) exDB
      ⟨some "cara@example.com", some "secret", some "provider"⟩
      exPendingProvider rfl (by decide) (by decide) (by decide) rfl).1 rfl
  · exact (provider_login_requires_approval (fun _ _ => true) exDB
      ⟨some "bob@example.com", some "secret", some "provider"⟩
      exProvider rfl (by decide) (by decide) (by decide) rfl).2 rfl

/-- C7: the handler never reads the client-supplied `totalPrice`: two
booking-creation requests identical except for that field produce
identical results (same error, or same persisted booking with the same
recomputed `totalPrice`). -/
theorem booking_ignores_client_totalPrice
    (db : DB) (fid : String) (r1 r2 : BookingRequest)
    (h : { r1 with totalPrice := none } = { r2 with totalPrice := none }) :
    createBooking db fid r1 = createBooking db fid r2 := by
  have e1 : createBooking db fid r1 =
      createBooking db fid { r1 with totalPrice := none } := rfl
  have e2 : createBooking db fid r2 =
      createBooking db fid { r2 with totalPrice := none } := rfl
  rw [e1, e2, h]

/-- C7 witness: smuggling `totalPrice := 1` into the worked example
changes nothing about the result. -/
theorem booking_ignores_client_totalPrice_witness :
    createBooking exDB "b1" villageTourReq =
      createBooking exDB "b1" { villageTourReq with totalPrice := some 1 } :=
  booking_ignores_client_totalPrice exDB "b1" villageTourReq
    { villageTourReq with totalPrice := some 1 } rfl

/-- C8: booking-creation validation is fail-fast in source order: the
first violated check — (1) required fields, (2) not both sources,
(3) providerId shape, (4) touristId shape, then tourist existence —
fully determines the response, for every database state, so no later
check or database write can influence it. -/
theorem booking_validation_order
    (db : DB) (fid : String) (r : BookingRequest) :
    ((!truthyStr r.touristId || !truthyStr r.date || !truthyStr r.time
        || !truthyNum r.adults) = true →
      createBooking db fid r =
        .error 400 "Tourist ID, Date, Time, and Adults are required") ∧
    ((!truthyStr r.touristId || !truthyStr r.date || !truthyStr r.time
        || !truthyNum r.adults) = false →
      (truthyStr r.providerId && truthyStr r.productType) = true →
      createBooking db fid r =
        .error 400 "Cannot specify both providerId and productType") ∧
    ((!truthyStr r.touristId || !truthyStr r.date || !truthyStr r.time
        || !truthyNum r.adults) = false →
      (truthyStr r.providerId && truthyStr r.productType) = false →
      (truthyStr r.providerId && !isValidObjectId (r.providerId.getD "")) = true →
      createBooking db fid r = .error 400 "Invalid Provider ID") ∧
    ((!truthyStr r.touristId || !truthyStr r.date || !truthyStr r.time
        || !truthyNum r.adults) = false →
      (truthyStr r.providerId && truthyStr r.productType) = false →
      (truthyStr r.providerId && !isValidObjectId (r.providerId.getD "")) = false →
      isValidObjectId (r.touristId.getD "") = false →
      createBooking db fid r = .error 400 "Invalid Tourist ID") ∧
    ((!truthyStr r.touristId || !truthyStr r.date || !truthyStr r.time
        || !truthyNum r.adults) = false →
      (truthyStr r.providerId && truthyStr r.productType) = false →
      (truthyStr r.providerId && !isValidObjectId (r.providerId.getD "")) = false →
      isValidObjectId (r.touristId.getD "") = true →
      db.tourists.find? (fun t => t.id == r.touristId.getD "") = none →
      createBooking db fid r = .error 404 "Tourist not found") ∧
    ((!truthyStr r.touristId || !truthyStr r.date || !truthyStr r.time
        || !truthyNum r.adults) = false →
      (truthyStr r.providerId && truthyStr r.productType) = false →
      (truthyStr r.providerId && !isValidObjectId (r.providerId.getD "")) = false →
      isValidObjectId (r.touristId.getD "") = true →
      (db.tourists.find? (fun t => t.id == r.touristId.getD "")).isNone = false →
      truthyStr r.providerId = true →
      db.providers.find? (fun x => x.id == r.providerId.getD "") = none →
      createBooking db fid r = .error 404 "Provider not found") ∧
    ((!truthyStr r.touristId || !truthyStr r.date || !truthyStr r.time
        || !truthyNum r.adults) = false →
      (truthyStr r.providerId && truthyStr r.productType) = false →
      isValidObjectId (r.touristId.getD "") = true →
      (db.tourists.find? (fun t => t.id == r.touristId.getD "")).isNone = false →
      truthyStr r.providerId = false →
      truthyStr r.productType = true →
      pricingFor (r.productType.getD "") = none →
      createBooking db fid r =
        .error 400 "Invalid product type or no pricing available") ∧
    ((!truthyStr r.touristId || !truthyStr r.date || !truthyStr r.time
        || !truthyNum r.adults) = false →
      isValidObjectId (r.touristId.getD "") = true →
      (db.tourists.find? (fun t => t.id == r.touristId.getD "")).isNone = false →
      truthyStr r.providerId = false →
      truthyStr r.productType = false →
      createBooking db fid r =
        .error 400 "Either providerId or productType is required") := by
  refine ⟨?_, ?_, ?_, ?_, ?_, ?_, ?_, ?_⟩
  · intro h1
    simp [createBooking, h1]
  · intro h1 h2
    simp [createBooking, h1, h2]
  · intro h1 h2 h3
    simp [createBooking, h1, h2, h3]
  · intro h1 h2 h3 h4
    simp [createBooking, h1, h2, h3, h4]
  · intro h1 h2 h3 h4 h5
    simp [createBooking, h1, h2, h3, h4, h5]
  · intro h1 h2 h3 h4 h5 h6 h7
    rw [h6] at h2 h3
    simp only [Bool.true_and] at h2 h3
    simp only [Bool.not_eq_false'] at h3
    simp [createBooking, h1, h2, h3, h4, h5, h6, h7]
  · intro h1 h2 h3 h4 h5 h6 h7
    simp [createBooking, h1, h2, h3, h4, h5, h6, h7]
  · intro h1 h2 h3 h4 h5
    simp [createBooking, h1, h2, h3, h4, h5]

/-- C8 witness: a request lacking `date` is stopped by check (1) with
the missing-fields 400 error. -/
theorem booking_validation_order_witness :
    createBooking exDB "b1" { villageTourReq with date := none } =
      .error 400 "Tourist ID, Date, Time, and Adults are required" :=
  (booking_validation_order exDB "b1"
    { villageTourReq with date := none }).1 (by decide)

/-- The worked example with `adults` set to the number 0: every other
required field is present and valid. -/
def zeroAdultsReq : BookingRequest := { villageTourReq with adults := some 0 }

/-- C9: a booking request carrying the JS number `0` for `adults` — with
touristId, date and time present and valid — is rejected by the
`!adults` presence check with the missing-fields 400 error instead of
proceeding to pricing: `0` is falsy in JS, contradicting the spec's
`adults (≥0)`. -/
theorem booking_zero_adults_rejected :
    zeroAdultsReq.adults = some 0 ∧
    zeroAdultsReq.touristId = some "aaaaaaaaaaaaaaaaaaaaaaaa" ∧
    truthyStr zeroAdultsReq.date = true ∧
    truthyStr zeroAdultsReq.time = true ∧
    createBooking exDB "b1" zeroAdultsReq =
      .error 400 "Tourist ID, Date, Time, and Adults are required" := by
  decide

/-- A string field that is truthy is nonempty after `getD ""`. -/
theorem truthyStr_getD_ne (o : Option String) (h : truthyStr o = true) :
    (o.getD "" != "") = true := by
  cases o with
  | none => simp [truthyStr] at h
  | some s => simpa [truthyStr] using h

/-- C10: the admin add-provider route persists `approved = true`
immediately, while self-signup persists `approved = false`; consequently
an admin-created provider can log in (given matching credentials) from
the moment of creation, with no separate approval step. -/
theorem provider_creation_approved_flags
    (hashFn : String → String) (db : DB) (fid : String) (r : ProviderRequest) :
    (∀ db2 p, addProvider hashFn db fid r = .created db2 p →
      p.approved = true ∧ db2.providers = db.providers ++ [p]) ∧
    (∀ db2 p, providerSignup hashFn db fid r = .created db2 p →
      p.approved = false ∧ db2.providers = db.providers ++ [p]) ∧
    (∀ db2 p compare pw, addProvider hashFn db fid r = .created db2 p →
      compare pw p.password = true → pw ≠ "" →
      login compare db2 ⟨some p.email, some pw, some "provider"⟩ =
        .token p.id "provider") := by
  refine ⟨?_, ?_, ?_⟩
  · intro db2 p h
    simp only [addProvider] at h
    split at h
    · exact absurd h (by simp)
    split at h
    · exact absurd h (by simp)
    split at h
    · exact absurd h (by simp)
    split at h
    · exact absurd h (by simp)
    injection h with hdb hp
    subst hdb hp
    exact ⟨rfl, rfl⟩
  · intro db2 p h
    simp only [providerSignup] at h
    split at h
    · exact absurd h (by simp)
    split at h
    · exact absurd h (by simp)
    split at h
    · exact absurd h (by simp)
    split at h
    · exact absurd h (by simp)
    split at h
    · exact absurd h (by simp)
    split at h
    · exact absurd h (by simp)
    injection h with hdb hp
    subst hdb hp
    exact ⟨rfl, rfl⟩
  · intro db2 p compare pw h hcmp hpw
    simp only [addProvider] at h
    split at h
    · exact absurd h (by simp)
    next hfields =>
    split at h
    · exact absurd h (by simp)
    split at h
    · exact absurd h (by simp)
    split at h
    · exact absurd h (by simp)
    next hdup =>
    injection h with hdb hp
    subst hdb hp
    simp only [Bool.not_eq_true, Bool.or_eq_false_iff, Bool.not_eq_false'] at hfields
    have hem : truthyStr r.email = true := hfields.1.1.1.1.1.1.2
    have hemail : (r.email.getD "" != "") = true := truthyStr_getD_ne _ hem
    have hnone : db.providers.find? (fun q => q.email == r.email.getD "") = none := by
      simp only [Bool.not_eq_true] at hdup
      exact Option.not_isSome_iff_eq_none.mp (by simp [hdup])
    simp only [login, truthyStr, Option.getD_some, hemail, hpw, hcmp]
    simp [List.find?_append, hnone, hcmp, hpw]

/-- A complete provider-creation request with all fields present and one
photo. -/
def exProviderReq : ProviderRequest :=
  { serviceName := some "S", fullName := some "F", email := some "s@e.com",
    contact := some "071", category := some "C", location := some "L",
    price := some 12, description := some "D", password := some "secret1",
    profilePicture := some "pp.jpg", photos := ["a.jpg"] }

/-- The provider the admin route creates from `exProviderReq`. -/
def exCreatedProvider : Provider :=
  ⟨"ee", "S", "F", "s@e.com", "071", "C", "L", 12, "D", "secret1#h", true,
    "Uploads/pp.jpg", ["Uploads/a.jpg"]⟩

/-- The database after the admin creation above. -/
def exCreatedDB : DB := ⟨[], [exCreatedProvider], [], []⟩

/-- The provider the signup route creates from `exProviderReq`. -/
def exSignupProvider : Provider :=
  ⟨"ff", "S", "F", "s@e.com", "071", "C", "L", 12, "D", "secret1#h", false,
    "/Uploads/pp.jpg", ["/Uploads/a.jpg"]⟩

/-- C10 witness: the concrete admin-created provider comes out with
`approved = true` and can log in at once; the concrete self-signup
provider comes out with `approved = false`. -/
theorem provider_creation_approved_flags_witness :
    exCreatedProvider.approved = true ∧
    exSignupProvider.approved = false ∧
    login (fun _ _ => true) exCreatedDB
        ⟨some exCreatedProvider.email, some "secret1", some "provider"⟩ =
      .token exCreatedProvider.id "provider" := by
  have h1 : addProvider (fun s => s ++ "#h") emptyDB "ee" exProviderReq =
      .created exCreatedDB exCreatedProvider := by decide
  have h2 : providerSignup (fun s => s ++ "#h") emptyDB "ff" exProviderReq =
      .created ⟨[], [exSignupProvider], [], []⟩ exSignupProvider := by decide
  obtain ⟨c1, -, c3⟩ :=
    provider_creation_approved_flags (fun s => s ++ "#h") emptyDB "ee" exProviderReq
  obtain ⟨-, d2, -⟩ :=
    provider_creation_approved_flags (fun s => s ++ "#h") emptyDB "ff" exProviderReq
  exact ⟨(c1 _ _ h1).1, (d2 _ _ h2).1,
    c3 _ _ (fun _ _ => true) "secret1" h1 rfl (by decide)⟩

end Jeep
